import Mathlib

/-!
Verification development for the DollarClub script-execution subsystem.

Shallow embedding of:
* `backend/app/tasks/script_execution.py` (`execute_script`, the supervisor),
* `backend/app/tasks/celery_app.py` (`cleanup_stale_scripts`),
* `backend/app/api/scripts.py` (`execute_script_endpoint`, cancel endpoint),
* `backend/app/services/package_validator.py` (`PackageValidator`).

Modelling conventions:
* Timestamps and durations are natural numbers in milliseconds; `datetime.utcnow()`
  is modelled by the current value of a logical clock threaded through the state.
* The SQLAlchemy session (`SessionLocal` is configured with `expire_on_commit=False`,
  `autoflush=False`) is modelled as an in-memory view of the row plus per-field dirty
  flags: attribute assignment marks the field dirty, `db.commit()` writes exactly the
  dirty fields to the durable row and clears the flags, `db.refresh()` replaces the
  view with the durable row and clears the flags.  The durable row is the only state
  shared with the API process.
* The child process is abstracted to a liveness bit; `_kill_process` (the psutil
  terminate/kill escalation) is modelled as always leaving the process dead.
* All interaction with the outside world (line reads and how long they block, the
  child exit code, the API cancellation write landing before or after the
  iteration's `db.refresh`, unexpected exceptions) is supplied by an environment
  trace; the loop recurses on that trace, so an exhausted trace means the loop was
  still running.
-/

namespace DollarClub

/-- `ScriptStatus` from `backend/app/models/script.py`. -/
inductive ScriptStatus where
  | UPLOADED
  | RUNNING
  | COMPLETED
  | FAILED
  | CANCELLED
  deriving DecidableEq, Repr

/-- The terminal statuses, per the model's check constraint
`ck_completed_has_completion_time`. -/
def ScriptStatus.isTerminal : ScriptStatus → Bool
  | .COMPLETED => true
  | .FAILED => true
  | .CANCELLED => true
  | _ => false

/-- The mutable execution fields of the `scripts` row
(`backend/app/models/script.py`).  Identity and file metadata are omitted: the
supervisor never writes them. -/
structure ScriptRecord where
  status : ScriptStatus
  executionLogs : Option String
  errorMessage : Option String
  exitCode : Option Int
  executionTimeSeconds : Option Nat
  startedAt : Option Nat
  completedAt : Option Nat
  celeryTaskId : Option String
  deriving DecidableEq, Repr

/-- Per-field dirty flags of the ORM session (unit-of-work change tracking). -/
structure Dirty where
  status : Bool := false
  executionLogs : Bool := false
  errorMessage : Bool := false
  exitCode : Bool := false
  executionTimeSeconds : Bool := false
  startedAt : Bool := false
  completedAt : Bool := false
  celeryTaskId : Bool := false
  deriving DecidableEq, Repr

def Dirty.clean : Dirty := {}

/-- The ORM session's handle on the row: an in-memory view plus dirty flags.
`expire_on_commit=False` (see `backend/app/core/database.py`), so the view is
not reloaded after a commit. -/
structure Session where
  view : ScriptRecord
  dirty : Dirty
  deriving DecidableEq, Repr

/-- `db.refresh(script)`: reload the view from the durable row. -/
def refreshSession (db : ScriptRecord) : Session := ⟨db, Dirty.clean⟩

def Session.setStatus (s : Session) (v : ScriptStatus) : Session :=
  ⟨{ s.view with status := v }, { s.dirty with status := true }⟩

def Session.setExecutionLogs (s : Session) (v : Option String) : Session :=
  ⟨{ s.view with executionLogs := v }, { s.dirty with executionLogs := true }⟩

def Session.setErrorMessage (s : Session) (v : Option String) : Session :=
  ⟨{ s.view with errorMessage := v }, { s.dirty with errorMessage := true }⟩

def Session.setExitCode (s : Session) (v : Option Int) : Session :=
  ⟨{ s.view with exitCode := v }, { s.dirty with exitCode := true }⟩

def Session.setExecutionTimeSeconds (s : Session) (v : Option Nat) : Session :=
  ⟨{ s.view with executionTimeSeconds := v }, { s.dirty with executionTimeSeconds := true }⟩

def Session.setStartedAt (s : Session) (v : Option Nat) : Session :=
  ⟨{ s.view with startedAt := v }, { s.dirty with startedAt := true }⟩

def Session.setCompletedAt (s : Session) (v : Option Nat) : Session :=
  ⟨{ s.view with completedAt := v }, { s.dirty with completedAt := true }⟩

def Session.setCeleryTaskId (s : Session) (v : Option String) : Session :=
  ⟨{ s.view with celeryTaskId := v }, { s.dirty with celeryTaskId := true }⟩

/-- The UPDATE a flush emits: exactly the dirty fields overwrite the row. -/
def applyDirty (s : Session) (db : ScriptRecord) : ScriptRecord :=
  { status := if s.dirty.status then s.view.status else db.status
    executionLogs := if s.dirty.executionLogs then s.view.executionLogs else db.executionLogs
    errorMessage := if s.dirty.errorMessage then s.view.errorMessage else db.errorMessage
    exitCode := if s.dirty.exitCode then s.view.exitCode else db.exitCode
    executionTimeSeconds :=
      if s.dirty.executionTimeSeconds then s.view.executionTimeSeconds
      else db.executionTimeSeconds
    startedAt := if s.dirty.startedAt then s.view.startedAt else db.startedAt
    completedAt := if s.dirty.completedAt then s.view.completedAt else db.completedAt
    celeryTaskId := if s.dirty.celeryTaskId then s.view.celeryTaskId else db.celeryTaskId }

/-- `db.commit()`: flush the dirty fields to the durable row and clear the flags.
With `expire_on_commit=False` the view keeps its current values. -/
def doCommit (s : Session) (db : ScriptRecord) : Session × ScriptRecord :=
  (⟨s.view, Dirty.clean⟩, applyDirty s db)

/-- The cancellation endpoint's durable write (`backend/app/api/scripts.py`,
`cancel_script_endpoint`): guarded by `status == RUNNING`, it sets
`status = CANCELLED` and `completed_at = utcnow()` and commits.  This is the
out-of-band write the supervisor is expected to detect. -/
def apiCancel (t : Nat) (db : ScriptRecord) : ScriptRecord :=
  if db.status = .RUNNING then { db with status := .CANCELLED, completedAt := some t } else db

/-! ## Package validator (`backend/app/services/package_validator.py`) -/

/-- `IMPORT_TO_PACKAGE`: import-alias to distributable-package lookup table. -/
def IMPORT_TO_PACKAGE : List (String × String) :=
  [("cv2", "opencv-python"), ("PIL", "Pillow"), ("sklearn", "scikit-learn"),
   ("yaml", "PyYAML"), ("dateutil", "python-dateutil"), ("bs4", "beautifulsoup4"),
   ("dotenv", "python-dotenv")]

/-- `STDLIB_MODULES`: the standard-library allowlist. -/
def STDLIB_MODULES : List String :=
  ["abc", "argparse", "asyncio", "base64", "collections", "concurrent",
   "copy", "csv", "datetime", "decimal", "email", "enum", "functools",
   "glob", "hashlib", "hmac", "http", "io", "itertools", "json", "logging",
   "math", "multiprocessing", "operator", "os", "pathlib", "pickle", "queue",
   "re", "random", "shutil", "signal", "socket", "sqlite3", "statistics",
   "string", "subprocess", "sys", "tempfile", "threading", "time", "typing",
   "unittest", "urllib", "uuid", "warnings", "weakref", "xml", "zipfile"]

/-- Abstract result of `ast.parse` on the script file: either the dotted module
names mentioned by its `import`/`from ... import` statements, in AST-walk
order, or a failure (syntax error, unreadable file, ...). -/
inductive ParseOutcome where
  | parsed (names : List String)
  | parseError
  deriving DecidableEq, Repr

/-- `name.split('.')[0]`: the prefix of a dotted module name before the first
dot (the whole name when it has no dot, the empty string when it starts with
one — exactly Python's first split component). -/
def topLevelName (n : String) : String :=
  String.mk (n.toList.takeWhile fun c => c ≠ '.')

/-- Python's `str.lower()` (the names involved are ASCII). -/
def pyLower (s : String) : String :=
  String.mk (s.toList.map Char.toLower)

/-- `PackageValidator.extract_imports`: collect the top-level package name of
every import (`alias.name.split('.')[0]`) into a set; any exception yields the
empty set. -/
def extract_imports : ParseOutcome → List String
  | .parsed names => (names.map topLevelName).dedup
  | .parseError => []

/-- `PackageValidator.validate_packages`: filter out stdlib modules, map each
remaining import through `IMPORT_TO_PACKAGE`, and split into missing and
available against the installed-package set (lower-cased names, as produced by
`_get_installed_packages`).  Returns `(all_installed, missing, available)`. -/
def validate_packages (p : ParseOutcome) (installed : List String) :
    Bool × List String × List String :=
  let imports := extract_imports p
  let external := imports.filter fun i => !(STDLIB_MODULES.contains i)
  let acc := external.foldl
    (fun (acc : List String × List String) importName =>
      let packageName := (IMPORT_TO_PACKAGE.lookup importName).getD importName
      if installed.contains (pyLower packageName) then (acc.1, acc.2 ++ [packageName])
      else (acc.1 ++ [packageName], acc.2))
    ([], [])
  (acc.1.isEmpty, acc.1, acc.2)

/-- `PackageValidator.get_install_command`. -/
def get_install_command (packages : List String) : String :=
  if packages.isEmpty then "" else "pip install " ++ " ".intercalate packages

/-- `PackageValidator.create_error_message`: the user-facing message listing the
missing packages (the stripped f-string from the source). -/
def create_error_message (missing : List String) : String :=
  if missing.isEmpty then ""
  else
    "Missing Python packages detected!\n\n" ++
    "Your script requires the following packages that are not installed:\n" ++
    ", ".intercalate missing ++
    "\n\nTo install these packages, run:\n" ++
    get_install_command missing ++
    "\n\nOr ask your administrator to install them in the backend environment."

/-! ## Execution supervisor (`backend/app/tasks/script_execution.py`, `execute_script`) -/

/-- `time.sleep(0.01)` from the empty-read branch, in milliseconds. -/
def pollSleep : Nat := 10

/-- `heartbeat_interval = 2.0` seconds, in milliseconds. -/
def heartbeatInterval : Nat := 2000

/-- What one `process.stdout.readline()` call yields, with the wall-clock time
(ms) the call spent blocked.  The call is a plain blocking `readline` on the
pipe (no `select`, no timeout), so the duration is decided by the child and
can be arbitrary while the child is alive and silent. -/
inductive ReadEvent where
  /-- A non-empty read; `s` is the line after `.strip()`. -/
  | line (s : String) (dur : Nat)
  /-- `readline` returned an empty string and `process.poll()` reported exit
  code `code`: the loop breaks (lines 250-256). -/
  | eofExited (code : Int) (dur : Nat)
  /-- Empty read while `poll()` is still `None` (lines 258-266).
  `pollAfterBreak` is what `poll()` at line 343 would report, used only when
  the in-memory cancellation flag breaks out of the loop here. -/
  | emptyAlive (dur : Nat) (pollAfterBreak : Option Int)
  /-- `IOError`/`OSError` from the read: the loop breaks (lines 268-271);
  `pollAfterBreak` is the subsequent `poll()` result at line 343. -/
  | ioError (dur : Nat) (pollAfterBreak : Option Int)
  /-- Any other exception from the read is swallowed and the loop continues
  (lines 272-274). -/
  | readError (dur : Nat)
  deriving DecidableEq, Repr

/-- Environment input for one loop iteration: when the API's out-of-band
CANCELLED write lands relative to this iteration's `db.refresh`, and what the
read produced.  `excAtLoopTop` injects an unexpected exception propagating out
of the iteration's database or bookkeeping operations (storage failure,
`update_state` failure, ...), which unwinds to the top-level handler. -/
structure LoopEvent where
  cancelBeforeRefresh : Bool
  excAtLoopTop : Option String
  cancelAfterRefresh : Bool
  read : ReadEvent
  deriving DecidableEq, Repr

/-- The configuration the supervisor reads: `settings.MAX_EXECUTION_TIME`
(seconds in the source; model time units here). -/
structure ExecConfig where
  timeout : Nat
  deriving DecidableEq, Repr

/-- Everything the outside world decides about one `execute_script` run. -/
structure ExecEnv where
  /-- Does `db.query(Script).filter(...).first()` find the row? -/
  recordFound : Bool
  /-- `script.file_path`. -/
  filePath : String
  /-- `os.path.exists(script.file_path)`. -/
  fileExists : Bool
  /-- Result of parsing the script for the package precheck. -/
  parse : ParseOutcome
  /-- The installed-package set (lower-cased), from `pip list`. -/
  installed : List String
  /-- Does `subprocess.Popen` succeed?  On failure it raises to the top-level
  handler with message `spawnErr`. -/
  spawnOk : Bool
  spawnErr : String
  /-- Wall-clock time at task start (`time.time()` / `utcnow` origin). -/
  startClock : Nat
  /-- Whether `script_id ∈ cancelled_scripts` when the task starts.  No code in
  the repository ever adds to that module-level set (the API cancels via the
  database only), so in deployment this is always `false`. -/
  memCancelInit : Bool
  /-- One entry per loop iteration; the run is still looping if they run out. -/
  events : List LoopEvent
  deriving DecidableEq, Repr

/-- Supervisor-local state while the main loop runs. -/
structure LoopState where
  /-- The durable row (shared with the API process). -/
  db : ScriptRecord
  /-- The ORM session's handle on the row. -/
  sess : Session
  /-- The in-memory `logs` list. -/
  logs : List String
  /-- Current wall-clock time (ms). -/
  now : Nat
  /-- `start_time` (line 158). -/
  startTime : Nat
  /-- `last_db_update` (line 199). -/
  lastDbUpdate : Nat
  /-- Is the child process alive? -/
  procLive : Bool
  /-- Current value of `script_id ∈ cancelled_scripts`. -/
  memCancel : Bool
  /-- Ghost: was a child process ever launched for this run? -/
  everLaunched : Bool
  /-- Ghost: did the durable row ever hold status CANCELLED during this run? -/
  everCancelled : Bool
  deriving DecidableEq, Repr

/-- Which exit of `execute_script` produced the result (the returned dict /
raised-through outcome). -/
inductive OutcomeTag where
  /-- The record did not exist: the top-level handler catches the raise but
  skips the record update (`script` is `None`). -/
  | notFound
  /-- Package precheck failed with this missing list (lines 135-152). -/
  | precheckFailed (missing : List String)
  /-- A `"cancelled"` return (lines 231, 291, 348). -/
  | cancelledRet
  /-- Natural exit, `return_code == 0` (lines 358-362). -/
  | completedNat (code : Option Int)
  /-- Natural exit, nonzero (or `None`) return code (lines 363-368). -/
  | failedNat (code : Option Int)
  /-- The `TimeoutError` handler ran (lines 380-407). -/
  | timeoutFailed
  /-- The top-level exception handler ran with this message (lines 409-441). -/
  | excFailed (msg : String)
  /-- The environment trace ended while the loop was still running. -/
  | outOfFuel
  deriving DecidableEq, Repr

/-- Observable result of a run: the durable row, child liveness, the ghost
flags, and which exit was taken. -/
structure ExecResult where
  db : ScriptRecord
  procLive : Bool
  everLaunched : Bool
  everCancelled : Bool
  outcome : OutcomeTag
  deriving DecidableEq, Repr

/-- `"\n".join(logs)`. -/
def joinLogs (logs : List String) : String := "\n".intercalate logs

/-- Python `str()` of the `return_code` value (an `int` or `None`). -/
def pyOptInt : Option Int → String
  | none => "None"
  | some c => toString c

/-- The `"\n\n[Cancelled by user at <timestamp>]"` marker (timestamps are
model-clock values). -/
def cancelNote (t : Nat) : String := "\n\n[Cancelled by user at " ++ toString t ++ "]"

/-- `_kill_process` (lines 29-102): terminate-then-kill escalation over the
child and its descendants; abstracted to "the child ends up dead". -/
def kill_process (_alive : Bool) : Bool := false

/-- Apply the API's cancellation write to the durable row if the environment
says it lands at this point, recording it in the ghost flag. -/
def applyCancelIf (b : Bool) (s : LoopState) : LoopState :=
  if b then
    let db' := apiCancel s.now s.db
    { s with db := db', everCancelled := s.everCancelled || decide (db'.status = .CANCELLED) }
  else s

def mkResult (s : LoopState) (tag : OutcomeTag) : ExecResult :=
  ⟨s.db, s.procLive, s.everLaunched, s.everCancelled, tag⟩

/-- Lines 209-236: the iteration's `db.refresh` observed CANCELLED.  Kill the
child if alive, save the logs with the cancellation marker, set
`completed_at`, clear `celery_task_id`, commit, and return.  `status` is not
assigned (it is already CANCELLED in the session and the row). -/
def cancelTopReturn (s : LoopState) : ExecResult :=
  let live := kill_process s.procLive
  let sessA := ((s.sess.setExecutionLogs (some (joinLogs s.logs ++ cancelNote s.now))).setCompletedAt
      (some s.now)).setCeleryTaskId none
  ⟨(doCommit sessA s.db).2, live, s.everLaunched, true, .cancelledRet⟩

/-- Lines 283-296: the in-memory cancellation flag was set when a line was
being processed.  Discard the flag, save logs with the marker, set
status/completed_at/task id, commit, and return.  Note: this path does not
kill the child. -/
def lineCancelReturn (s : LoopState) : ExecResult :=
  let sessA := (((s.sess.setExecutionLogs (some (joinLogs s.logs ++ cancelNote s.now))).setStatus
      .CANCELLED).setCompletedAt (some s.now)).setCeleryTaskId none
  ⟨(doCommit sessA s.db).2, s.procLive, s.everLaunched, true, .cancelledRet⟩

/-- Lines 239-242 and 380-407: the `TimeoutError` raise and its handler —
kill the child, mark FAILED with the timeout message, flush logs, set
`completed_at`, clear the task id, commit. -/
def timeoutHandler (cfg : ExecConfig) (s : LoopState) : ExecResult :=
  let live := kill_process s.procLive
  let msg := "Script execution exceeded " ++ toString cfg.timeout ++ " seconds"
  let sessA := ((((s.sess.setStatus .FAILED).setErrorMessage (some msg)).setExecutionLogs
      (some (joinLogs s.logs))).setCompletedAt (some s.now)).setCeleryTaskId none
  ⟨(doCommit sessA s.db).2, live, s.everLaunched, s.everCancelled, .timeoutFailed⟩

/-- Lines 409-441: the top-level exception handler when the record was found —
kill the child if it is still running, mark FAILED with the exception text,
set `completed_at`, flush logs, clear the task id, commit. -/
def outerHandler (msg : String) (s : LoopState) : ExecResult :=
  let live := kill_process s.procLive
  let sessA := ((((s.sess.setStatus .FAILED).setErrorMessage (some msg)).setCompletedAt
      (some s.now)).setExecutionLogs (some (joinLogs s.logs))).setCeleryTaskId none
  ⟨(doCommit sessA s.db).2, live, s.everLaunched, s.everCancelled, .excFailed msg⟩

/-- Lines 298-302: the per-line flush — persist the joined logs and stamp
`last_db_update`. -/
def lineFlush (s : LoopState) : LoopState :=
  let sessA := s.sess.setExecutionLogs (some (joinLogs s.logs))
  let p := doCommit sessA s.db
  { s with sess := p.1, db := p.2, lastDbUpdate := s.now }

/-- The synthetic heartbeat line (line 312). -/
def statusMsg (elapsed lineCount : Nat) : String :=
  "[Status: Script running... " ++ toString elapsed ++ "s elapsed, " ++
    toString lineCount ++ " lines captured]"

/-- Lines 305-323: the heartbeat block.  (Reached only on line iterations,
which have just reset `last_db_update`, so the guard is never true there; the
empty-read and read-error branches `continue` before this point.) -/
def heartbeatStep (s : LoopState) : LoopState :=
  if heartbeatInterval ≤ s.now - s.lastDbUpdate then
    let elapsed := s.now - s.startTime
    let s' :=
      if s.logs.isEmpty || 3000 < s.now - s.startTime then
        if s.logs.isEmpty || !(((s.logs.getLast?).getD "").startsWith "[Status:") then
          let logs' := s.logs ++ [statusMsg elapsed s.logs.length]
          { s with logs := logs', sess := s.sess.setExecutionLogs (some (joinLogs logs')) }
        else s
      else
        let txt := if s.logs.isEmpty then "[Script started, waiting for output...]"
                   else joinLogs s.logs
        { s with sess := s.sess.setExecutionLogs (some txt) }
    let p := doCommit s'.sess s'.db
    { s' with sess := p.1, db := p.2, lastDbUpdate := s.now }
  else s

/-- Lines 342-378: after the loop breaks — read `return_code = process.poll()`,
re-check CANCELLED on the in-session object (line 346; this is not a database
reload), flush final logs, and make the terminal COMPLETED/FAILED write. -/
def postLoop (s : LoopState) (returnCode : Option Int) : ExecResult :=
  if s.sess.view.status = .CANCELLED then
    mkResult s .cancelledRet
  else
    let sessA := s.sess.setExecutionLogs (some (joinLogs s.logs))
    if returnCode = some 0 then
      let sessB := ((sessA.setStatus .COMPLETED).setCompletedAt (some s.now)).setCeleryTaskId none
      ⟨(doCommit sessB s.db).2, s.procLive, s.everLaunched, s.everCancelled,
        .completedNat returnCode⟩
    else
      let sessB := (((sessA.setStatus .FAILED).setErrorMessage
          (some ("Script exited with code " ++ pyOptInt returnCode))).setCompletedAt
          (some s.now)).setCeleryTaskId none
      ⟨(doCommit sessB s.db).2, s.procLive, s.everLaunched, s.everCancelled,
        .failedNat returnCode⟩

/-- The state after the API write window preceding the refresh and the
iteration's `db.refresh(script)` (line 208). -/
def afterRefresh (cb : Bool) (s : LoopState) : LoopState :=
  let s1 := applyCancelIf cb s
  { s1 with sess := refreshSession s1.db }

/-- One iteration of the main loop (lines 203-340): either a continuation
state or an exit result. -/
def loopIter (cfg : ExecConfig) (e : LoopEvent) (s : LoopState) : Sum LoopState ExecResult :=
  match e.excAtLoopTop with
  | some m => .inr (outerHandler m (applyCancelIf e.cancelBeforeRefresh s))
  | none =>
    let s2 := afterRefresh e.cancelBeforeRefresh s
    -- lines 209-236: highest-priority check, against the reloaded status
    if s2.sess.view.status = .CANCELLED then .inr (cancelTopReturn s2)
    else
      -- or the API write lands only after this refresh
      let s3 := applyCancelIf e.cancelAfterRefresh s2
      -- lines 238-242: wall-clock timeout since start_time
      if cfg.timeout < s3.now - s3.startTime then .inr (timeoutHandler cfg s3)
      else
        match e.read with
        | .line ln dur =>
          -- lines 276-303: append, re-check the in-memory flag, then flush
          let s4 := { s3 with now := s3.now + dur, logs := s3.logs ++ [ln] }
          if s4.memCancel then .inr (lineCancelReturn s4)
          else .inl (heartbeatStep (lineFlush s4))
        | .eofExited code dur =>
          .inr (postLoop { s3 with now := s3.now + dur, procLive := false } (some code))
        | .emptyAlive dur pollAfterBreak =>
          let s4 := { s3 with now := s3.now + dur }
          -- lines 258-266: re-check the in-memory flag, else sleep and continue
          if s4.memCancel then
            .inr (postLoop { s4 with procLive := pollAfterBreak.isNone } pollAfterBreak)
          else .inl { s4 with now := s4.now + pollSleep }
        | .ioError dur pollAfterBreak =>
          .inr (postLoop { s3 with now := s3.now + dur, procLive := pollAfterBreak.isNone }
            pollAfterBreak)
        | .readError dur => .inl { s3 with now := s3.now + dur }

/-- The main loop, driven by the environment trace. -/
def runLoop (cfg : ExecConfig) : List LoopEvent → LoopState → ExecResult
  | [], s => mkResult s .outOfFuel
  | e :: rest, s =>
    match loopIter cfg e s with
    | .inl s' => runLoop cfg rest s'
    | .inr r => r

/-- `execute_script` (lines 105-454): load the record, reset it to RUNNING,
check the file, run the package precheck, spawn the child, and drive the main
loop; every raise unwinds to the top-level handler. -/
def execute_script (cfg : ExecConfig) (env : ExecEnv) (db0 : ScriptRecord) : ExecResult :=
  if env.recordFound = false then
    -- lines 112-114 raise; the handler finds `script` falsy and skips the update
    ⟨db0, false, false, false, .notFound⟩
  else
    -- lines 116-124: reset to RUNNING, clearing all prior execution data
    let sess0 := refreshSession db0
    let sess1 := ((((((sess0.setStatus .RUNNING).setStartedAt
        (some env.startClock)).setCompletedAt none).setExecutionLogs
        (some "")).setErrorMessage none).setExitCode none).setExecutionTimeSeconds none
    let p1 := doCommit sess1 db0
    let s0 : LoopState :=
      { db := p1.2, sess := p1.1, logs := [], now := env.startClock,
        startTime := env.startClock, lastDbUpdate := env.startClock, procLive := false,
        memCancel := env.memCancelInit, everLaunched := false, everCancelled := false }
    -- lines 127-129: missing file raises to the top-level handler
    if env.fileExists = false then
      outerHandler ("Script file not found: " ++ env.filePath) s0
    else
      -- lines 131-152: package precheck; failure short-circuits before launch
      let v := validate_packages env.parse env.installed
      if v.1 = false then
        let msg := create_error_message v.2.1
        let sessA := ((((s0.sess.setStatus .FAILED).setErrorMessage
            (some msg)).setExecutionLogs (some ("Package validation failed.\n\n" ++
            msg))).setCompletedAt (some s0.now)).setCeleryTaskId none
        ⟨(doCommit sessA s0.db).2, false, false, false, .precheckFailed v.2.1⟩
      else
        -- lines 182-195: spawn; failure raises to the top-level handler
        if env.spawnOk = false then outerHandler env.spawnErr s0
        else runLoop cfg env.events { s0 with procLive := true, everLaunched := true }

/-! ## Worker-startup recovery (`backend/app/tasks/celery_app.py`) -/

/-- `cleanup_stale_scripts` (lines 29-81): on worker start, every record stuck
in RUNNING is forced to FAILED with an explanatory error, `completed_at` set,
task id cleared, and a restart marker appended to the logs; all other records
are untouched. -/
def cleanup_stale_scripts (t : Nat) (records : List ScriptRecord) : List ScriptRecord :=
  records.map fun r =>
    if r.status = .RUNNING then
      { r with status := .FAILED,
               errorMessage := some "Worker was restarted while script was running",
               completedAt := some t,
               celeryTaskId := none,
               executionLogs := some ((r.executionLogs.getD "") ++
                 "\n\n[Worker restarted - script terminated]") }
    else r

/-! ## Run submission (`backend/app/api/scripts.py`, `execute_script_endpoint`) -/

/-- HTTP-level outcome of a run submission. -/
inductive SubmitOutcome where
  | httpNotFound
  | httpAlreadyRunning
  | httpLimitReached
  | accepted (taskId : String)
  deriving DecidableEq, Repr

/-- `execute_script_endpoint` (lines 146-199): 404 if the record is missing,
400 if it is already RUNNING, 400 if the user is at the concurrency limit;
otherwise enqueue the Celery task and store its id on the record.  The third
component records whether a run task was dispatched — the only way a child
process can ever be started for this submission. -/
def execute_script_endpoint (record : Option ScriptRecord) (runningCount maxConcurrent : Nat)
    (taskId : String) : SubmitOutcome × Option ScriptRecord × Bool :=
  match record with
  | none => (.httpNotFound, none, false)
  | some script =>
    if script.status = .RUNNING then (.httpAlreadyRunning, some script, false)
    else if maxConcurrent ≤ runningCount then (.httpLimitReached, some script, false)
    else (.accepted taskId, some { script with celeryTaskId := some taskId }, true)

/-! ## Invariants and helper lemmas -/

/-- The `completed_at` consistency invariant of §8 of the design:
`completed_at` is non-null exactly on the terminal statuses. -/
def completedIffTerminal (r : ScriptRecord) : Prop :=
  r.completedAt ≠ none ↔ r.status.isTerminal = true

theorem apiCancel_exitCode (t : Nat) (db : ScriptRecord) :
    (apiCancel t db).exitCode = db.exitCode := by
  unfold apiCancel; split <;> rfl

theorem apiCancel_completedIffTerminal (t : Nat) (db : ScriptRecord)
    (h : completedIffTerminal db) : completedIffTerminal (apiCancel t db) := by
  unfold apiCancel
  split
  · simp [completedIffTerminal, ScriptStatus.isTerminal]
  · exact h

theorem applyCancelIf_sess (b : Bool) (s : LoopState) : (applyCancelIf b s).sess = s.sess := by
  unfold applyCancelIf; split <;> rfl

theorem applyCancelIf_now (b : Bool) (s : LoopState) : (applyCancelIf b s).now = s.now := by
  unfold applyCancelIf; split <;> rfl

theorem applyCancelIf_startTime (b : Bool) (s : LoopState) :
    (applyCancelIf b s).startTime = s.startTime := by
  unfold applyCancelIf; split <;> rfl

theorem applyCancelIf_memCancel (b : Bool) (s : LoopState) :
    (applyCancelIf b s).memCancel = s.memCancel := by
  unfold applyCancelIf; split <;> rfl

theorem applyCancelIf_everLaunched (b : Bool) (s : LoopState) :
    (applyCancelIf b s).everLaunched = s.everLaunched := by
  unfold applyCancelIf; split <;> rfl

theorem applyCancelIf_exitCode (b : Bool) (s : LoopState) :
    (applyCancelIf b s).db.exitCode = s.db.exitCode := by
  unfold applyCancelIf
  split
  · exact apiCancel_exitCode s.now s.db
  · rfl

theorem applyCancelIf_completedIffTerminal (b : Bool) (s : LoopState)
    (h : completedIffTerminal s.db) : completedIffTerminal (applyCancelIf b s).db := by
  unfold applyCancelIf
  split
  · exact apiCancel_completedIffTerminal s.now s.db h
  · exact h

theorem outerHandler_spec (m : String) (s : LoopState) (hd : s.sess.dirty = Dirty.clean) :
    (outerHandler m s).db.status = .FAILED ∧
    (outerHandler m s).db.errorMessage = some m ∧
    (outerHandler m s).db.celeryTaskId = none ∧
    (outerHandler m s).db.completedAt = some s.now ∧
    (outerHandler m s).db.exitCode = s.db.exitCode ∧
    (outerHandler m s).procLive = false ∧
    (outerHandler m s).everLaunched = s.everLaunched ∧
    (outerHandler m s).outcome = .excFailed m := by
  simp [outerHandler, Session.setStatus, Session.setErrorMessage, Session.setCompletedAt,
        Session.setExecutionLogs, Session.setCeleryTaskId, doCommit, applyDirty, kill_process,
        hd, Dirty.clean]

theorem cancelTopReturn_spec (s : LoopState) (hd : s.sess.dirty = Dirty.clean) :
    (cancelTopReturn s).db.status = s.db.status ∧
    (cancelTopReturn s).db.completedAt = some s.now ∧
    (cancelTopReturn s).db.celeryTaskId = none ∧
    (cancelTopReturn s).db.exitCode = s.db.exitCode ∧
    (cancelTopReturn s).procLive = false ∧
    (cancelTopReturn s).everLaunched = s.everLaunched ∧
    (cancelTopReturn s).outcome = .cancelledRet := by
  simp [cancelTopReturn, Session.setCompletedAt, Session.setExecutionLogs,
        Session.setCeleryTaskId, doCommit, applyDirty, kill_process, hd, Dirty.clean]

theorem lineCancelReturn_spec (s : LoopState) (hd : s.sess.dirty = Dirty.clean) :
    (lineCancelReturn s).db.status = .CANCELLED ∧
    (lineCancelReturn s).db.completedAt = some s.now ∧
    (lineCancelReturn s).db.celeryTaskId = none ∧
    (lineCancelReturn s).db.exitCode = s.db.exitCode ∧
    (lineCancelReturn s).everLaunched = s.everLaunched ∧
    (lineCancelReturn s).outcome = .cancelledRet := by
  simp [lineCancelReturn, Session.setStatus, Session.setCompletedAt, Session.setExecutionLogs,
        Session.setCeleryTaskId, doCommit, applyDirty, hd, Dirty.clean]

theorem timeoutHandler_spec (cfg : ExecConfig) (s : LoopState)
    (hd : s.sess.dirty = Dirty.clean) :
    (timeoutHandler cfg s).db.status = .FAILED ∧
    (timeoutHandler cfg s).db.completedAt = some s.now ∧
    (timeoutHandler cfg s).db.celeryTaskId = none ∧
    (timeoutHandler cfg s).db.exitCode = s.db.exitCode ∧
    (timeoutHandler cfg s).procLive = false ∧
    (timeoutHandler cfg s).everLaunched = s.everLaunched ∧
    (timeoutHandler cfg s).outcome = .timeoutFailed := by
  simp [timeoutHandler, Session.setStatus, Session.setErrorMessage, Session.setCompletedAt,
        Session.setExecutionLogs, Session.setCeleryTaskId, doCommit, applyDirty, kill_process,
        hd, Dirty.clean]

theorem postLoop_spec (s : LoopState) (rc : Option Int) (hd : s.sess.dirty = Dirty.clean)
    (hv : s.sess.view.status ≠ .CANCELLED) :
    (postLoop s rc).db.completedAt = some s.now ∧
    (postLoop s rc).db.celeryTaskId = none ∧
    (postLoop s rc).db.exitCode = s.db.exitCode ∧
    (postLoop s rc).everLaunched = s.everLaunched ∧
    (postLoop s rc).procLive = s.procLive ∧
    (rc = some 0 → (postLoop s rc).db.status = .COMPLETED ∧
       (postLoop s rc).outcome = .completedNat rc) ∧
    (rc ≠ some 0 → (postLoop s rc).db.status = .FAILED ∧
       (postLoop s rc).db.errorMessage = some ("Script exited with code " ++ pyOptInt rc) ∧
       (postLoop s rc).outcome = .failedNat rc) := by
  unfold postLoop
  rw [if_neg hv]
  by_cases hrc : rc = some 0
  · rw [if_pos hrc]
    simp [Session.setStatus, Session.setErrorMessage, Session.setCompletedAt,
          Session.setExecutionLogs, Session.setCeleryTaskId, doCommit, applyDirty,
          hd, Dirty.clean, hrc]
  · rw [if_neg hrc]
    simp [Session.setStatus, Session.setErrorMessage, Session.setCompletedAt,
          Session.setExecutionLogs, Session.setCeleryTaskId, doCommit, applyDirty,
          hd, Dirty.clean, hrc]

theorem lineFlush_spec (s : LoopState) (hd : s.sess.dirty = Dirty.clean) :
    (lineFlush s).sess.dirty = Dirty.clean ∧
    (lineFlush s).sess.view.status = s.sess.view.status ∧
    (lineFlush s).db.status = s.db.status ∧
    (lineFlush s).db.completedAt = s.db.completedAt ∧
    (lineFlush s).db.exitCode = s.db.exitCode ∧
    (lineFlush s).everLaunched = s.everLaunched ∧
    (lineFlush s).lastDbUpdate = s.now ∧
    (lineFlush s).now = s.now := by
  simp [lineFlush, Session.setExecutionLogs, doCommit, applyDirty, hd, Dirty.clean]

theorem heartbeatStep_of_fresh (s : LoopState) (h : s.lastDbUpdate = s.now) :
    heartbeatStep s = s := by
  unfold heartbeatStep
  rw [h]
  simp [heartbeatInterval]

theorem completedIffTerminal_congr {a b : ScriptRecord} (hs : b.status = a.status)
    (hc : b.completedAt = a.completedAt) (h : completedIffTerminal a) :
    completedIffTerminal b := by
  rw [completedIffTerminal, hs, hc]
  exact h

/-- What every loop exit guarantees, relative to the launch flag and the
`exit_code` column value at loop entry. -/
def ExitOk (launched : Bool) (exitc : Option Int) (r : ExecResult) : Prop :=
  completedIffTerminal r.db ∧ r.everLaunched = launched ∧ r.db.exitCode = exitc ∧
  r.db.status ≠ .RUNNING ∧
  (∀ m, r.outcome = .excFailed m → r.db.status = .FAILED ∧ r.db.errorMessage = some m ∧
     r.db.celeryTaskId = none ∧ r.db.completedAt ≠ none ∧ r.procLive = false) ∧
  (r.outcome = .cancelledRet → r.db.status = .CANCELLED) ∧
  (∀ c, r.outcome = .completedNat c → c = some 0 ∧ r.db.status = .COMPLETED) ∧
  (∀ c, r.outcome = .failedNat c → r.db.status = .FAILED ∧
     r.db.errorMessage = some ("Script exited with code " ++ pyOptInt c)) ∧
  r.outcome ≠ .outOfFuel

/-- What every continuation of the loop maintains. -/
def ContOk (launched : Bool) (exitc : Option Int) (s' : LoopState) : Prop :=
  s'.sess.dirty = Dirty.clean ∧ s'.sess.view.status ≠ .CANCELLED ∧
  completedIffTerminal s'.db ∧ s'.db.exitCode = exitc ∧ s'.everLaunched = launched

theorem outerHandler_exitOk (m : String) (s : LoopState) (hd : s.sess.dirty = Dirty.clean) :
    ExitOk s.everLaunched s.db.exitCode (outerHandler m s) := by
  obtain ⟨h1, h2, h3, h4, h5, h6, h7, h8⟩ := outerHandler_spec m s hd
  refine ⟨?_, h7, h5, ?_, ?_, ?_, ?_, ?_, ?_⟩
  · rw [completedIffTerminal, h1, h4]
    simp [ScriptStatus.isTerminal]
  · rw [h1]
    simp
  · intro m' hm'
    rw [h8] at hm'
    injection hm' with hmm
    subst hmm
    refine ⟨h1, h2, h3, ?_, h6⟩
    rw [h4]
    simp
  · rw [h8]
    simp
  · intro c hc
    rw [h8] at hc
    simp at hc
  · intro c hc
    rw [h8] at hc
    simp at hc
  · rw [h8]
    simp

theorem cancelTopReturn_exitOk (s : LoopState) (hd : s.sess.dirty = Dirty.clean)
    (hc : s.db.status = .CANCELLED) :
    ExitOk s.everLaunched s.db.exitCode (cancelTopReturn s) := by
  obtain ⟨h1, h2, h3, h4, h5, h6, h7⟩ := cancelTopReturn_spec s hd
  have hst : (cancelTopReturn s).db.status = .CANCELLED := h1.trans hc
  refine ⟨?_, h6, h4, ?_, ?_, ?_, ?_, ?_, ?_⟩
  · rw [completedIffTerminal, hst, h2]
    simp [ScriptStatus.isTerminal]
  · rw [hst]
    simp
  · intro m hm
    rw [h7] at hm
    simp at hm
  · intro _
    exact hst
  · intro c hc2
    rw [h7] at hc2
    simp at hc2
  · intro c hc2
    rw [h7] at hc2
    simp at hc2
  · rw [h7]
    simp

theorem lineCancelReturn_exitOk (s : LoopState) (hd : s.sess.dirty = Dirty.clean) :
    ExitOk s.everLaunched s.db.exitCode (lineCancelReturn s) := by
  obtain ⟨h1, h2, h3, h4, h5, h6⟩ := lineCancelReturn_spec s hd
  refine ⟨?_, h5, h4, ?_, ?_, ?_, ?_, ?_, ?_⟩
  · rw [completedIffTerminal, h1, h2]
    simp [ScriptStatus.isTerminal]
  · rw [h1]
    simp
  · intro m hm
    rw [h6] at hm
    simp at hm
  · intro _
    exact h1
  · intro c hc2
    rw [h6] at hc2
    simp at hc2
  · intro c hc2
    rw [h6] at hc2
    simp at hc2
  · rw [h6]
    simp

theorem timeoutHandler_exitOk (cfg : ExecConfig) (s : LoopState)
    (hd : s.sess.dirty = Dirty.clean) :
    ExitOk s.everLaunched s.db.exitCode (timeoutHandler cfg s) := by
  obtain ⟨h1, h2, h3, h4, h5, h6, h7⟩ := timeoutHandler_spec cfg s hd
  refine ⟨?_, h6, h4, ?_, ?_, ?_, ?_, ?_, ?_⟩
  · rw [completedIffTerminal, h1, h2]
    simp [ScriptStatus.isTerminal]
  · rw [h1]
    simp
  · intro m hm
    rw [h7] at hm
    simp at hm
  · intro hm
    rw [h7] at hm
    simp at hm
  · intro c hc2
    rw [h7] at hc2
    simp at hc2
  · intro c hc2
    rw [h7] at hc2
    simp at hc2
  · rw [h7]
    simp

theorem postLoop_exitOk (s : LoopState) (rc : Option Int)
    (hd : s.sess.dirty = Dirty.clean) (hv : s.sess.view.status ≠ .CANCELLED) :
    ExitOk s.everLaunched s.db.exitCode (postLoop s rc) := by
  obtain ⟨h1, h2, h3, h4, h5, h6, h7⟩ := postLoop_spec s rc hd hv
  by_cases hrc : rc = some 0
  · obtain ⟨hst, hout⟩ := h6 hrc
    refine ⟨?_, h4, h3, ?_, ?_, ?_, ?_, ?_, ?_⟩
    · rw [completedIffTerminal, hst, h1]
      simp [ScriptStatus.isTerminal]
    · rw [hst]
      simp
    · intro m hm
      rw [hout] at hm
      simp at hm
    · intro hm
      rw [hout] at hm
      simp at hm
    · intro c hc2
      rw [hout] at hc2
      injection hc2 with hcc
      subst hcc
      exact ⟨hrc, hst⟩
    · intro c hc2
      rw [hout] at hc2
      simp at hc2
    · rw [hout]
      simp
  · obtain ⟨hst, herr, hout⟩ := h7 hrc
    refine ⟨?_, h4, h3, ?_, ?_, ?_, ?_, ?_, ?_⟩
    · rw [completedIffTerminal, hst, h1]
      simp [ScriptStatus.isTerminal]
    · rw [hst]
      simp
    · intro m hm
      rw [hout] at hm
      simp at hm
    · intro hm
      rw [hout] at hm
      simp at hm
    · intro c hc2
      rw [hout] at hc2
      simp at hc2
    · intro c hc2
      rw [hout] at hc2
      injection hc2 with hcc
      subst hcc
      exact ⟨hst, herr⟩
    · rw [hout]
      simp

theorem refreshSession_view (db : ScriptRecord) : (refreshSession db).view = db := rfl

theorem refreshSession_dirty (db : ScriptRecord) : (refreshSession db).dirty = Dirty.clean := rfl

theorem ExitOk_mono {l l' : Bool} {x x' : Option Int} {r : ExecResult}
    (h : ExitOk l x r) (hl : l = l') (hx : x = x') : ExitOk l' x' r := by
  subst hl
  subst hx
  exact h

/-- Combined per-iteration contract over the continue/exit sum. -/
def IterOk (launched : Bool) (exitc : Option Int) : Sum LoopState ExecResult → Prop
  | .inl s' => ContOk launched exitc s'
  | .inr r => ExitOk launched exitc r

/-- Master lemma for one loop iteration: a continuation re-establishes the
loop invariants, and an exit satisfies `ExitOk`. -/
theorem loopIter_spec (cfg : ExecConfig) (e : LoopEvent) (s : LoopState)
    (hd : s.sess.dirty = Dirty.clean) (ht : completedIffTerminal s.db) :
    IterOk s.everLaunched s.db.exitCode (loopIter cfg e s) := by
  obtain ⟨cb, exc, ca, rd⟩ := e
  have hL1 : (applyCancelIf cb s).everLaunched = s.everLaunched :=
    applyCancelIf_everLaunched cb s
  have hX1 : (applyCancelIf cb s).db.exitCode = s.db.exitCode := applyCancelIf_exitCode cb s
  have hT1 : completedIffTerminal (applyCancelIf cb s).db :=
    applyCancelIf_completedIffTerminal cb s ht
  cases exc with
  | some m =>
    have h := outerHandler_exitOk m (applyCancelIf cb s)
      (by rw [applyCancelIf_sess]; exact hd)
    rw [hL1, hX1] at h
    exact h
  | none =>
    have hL3 : (applyCancelIf ca (afterRefresh cb s)).everLaunched = s.everLaunched :=
      (applyCancelIf_everLaunched ca _).trans hL1
    have hX3 : (applyCancelIf ca (afterRefresh cb s)).db.exitCode = s.db.exitCode :=
      (applyCancelIf_exitCode ca _).trans hX1
    have hT3 : completedIffTerminal (applyCancelIf ca (afterRefresh cb s)).db :=
      applyCancelIf_completedIffTerminal ca _ hT1
    have hd3 : (applyCancelIf ca (afterRefresh cb s)).sess.dirty = Dirty.clean := by
      rw [applyCancelIf_sess]
      rfl
    simp only [loopIter]
    by_cases hcanc : (afterRefresh cb s).sess.view.status = .CANCELLED
    · rw [if_pos hcanc]
      exact ExitOk_mono (cancelTopReturn_exitOk _ rfl hcanc) hL1 hX1
    · rw [if_neg hcanc]
      have hv3 : (applyCancelIf ca (afterRefresh cb s)).sess.view.status ≠ .CANCELLED := by
        rw [applyCancelIf_sess]
        exact hcanc
      by_cases htime : cfg.timeout <
          (applyCancelIf ca (afterRefresh cb s)).now -
            (applyCancelIf ca (afterRefresh cb s)).startTime
      · rw [if_pos htime]
        exact ExitOk_mono (timeoutHandler_exitOk cfg _ hd3) hL3 hX3
      · rw [if_neg htime]
        cases rd with
        | line ln dur =>
          by_cases hmem : (applyCancelIf ca (afterRefresh cb s)).memCancel = true
          · show IterOk _ _ (if _ then _ else _)
            rw [if_pos hmem]
            exact ExitOk_mono (lineCancelReturn_exitOk _ hd3) hL3 hX3
          · show IterOk _ _ (if _ then _ else _)
            rw [if_neg hmem]
            generalize hS : applyCancelIf ca (afterRefresh cb s) = S3 at hv3 hT3 hX3 hL3 hd3 ⊢
            have hlf := lineFlush_spec
              { S3 with now := S3.now + dur, logs := S3.logs ++ [ln] } hd3
            rw [heartbeatStep_of_fresh _
              (hlf.2.2.2.2.2.2.1.trans hlf.2.2.2.2.2.2.2.symm)]
            refine ⟨hlf.1, ?_, ?_, ?_, ?_⟩
            · rw [hlf.2.1]
              exact hv3
            · exact completedIffTerminal_congr hlf.2.2.1 hlf.2.2.2.1 hT3
            · exact hlf.2.2.2.2.1.trans hX3
            · exact hlf.2.2.2.2.2.1.trans hL3
        | eofExited code dur =>
          exact ExitOk_mono (postLoop_exitOk _ _ hd3 hv3) hL3 hX3
        | emptyAlive dur pollAfterBreak =>
          by_cases hmem : (applyCancelIf ca (afterRefresh cb s)).memCancel = true
          · show IterOk _ _ (if _ then _ else _)
            rw [if_pos hmem]
            exact ExitOk_mono (postLoop_exitOk _ _ hd3 hv3) hL3 hX3
          · show IterOk _ _ (if _ then _ else _)
            rw [if_neg hmem]
            exact ⟨hd3, hv3, hT3, hX3, hL3⟩
        | ioError dur pollAfterBreak =>
          exact ExitOk_mono (postLoop_exitOk _ _ hd3 hv3) hL3 hX3
        | readError dur =>
          exact ⟨hd3, hv3, hT3, hX3, hL3⟩

/-- What an `execute_script` run guarantees about its result, relative to the
launch flag and `exit_code` value at loop entry. -/
def RunOk (launched : Bool) (exitc : Option Int) (r : ExecResult) : Prop :=
  completedIffTerminal r.db ∧ r.everLaunched = launched ∧ r.db.exitCode = exitc ∧
  (∀ m, r.outcome = .excFailed m → r.db.status = .FAILED ∧ r.db.errorMessage = some m ∧
     r.db.celeryTaskId = none ∧ r.db.completedAt ≠ none ∧ r.procLive = false) ∧
  (r.outcome = .cancelledRet → r.db.status = .CANCELLED) ∧
  (∀ c, r.outcome = .completedNat c → c = some 0 ∧ r.db.status = .COMPLETED) ∧
  (∀ c, r.outcome = .failedNat c → r.db.status = .FAILED ∧
     r.db.errorMessage = some ("Script exited with code " ++ pyOptInt c)) ∧
  (r.outcome ≠ .outOfFuel → r.db.status ≠ .RUNNING)

theorem ExitOk_runOk {l : Bool} {x : Option Int} {r : ExecResult} (h : ExitOk l x r) :
    RunOk l x r :=
  ⟨h.1, h.2.1, h.2.2.1, h.2.2.2.2.1, h.2.2.2.2.2.1, h.2.2.2.2.2.2.1, h.2.2.2.2.2.2.2.1,
   fun _ => h.2.2.2.1⟩

theorem RunOk_mono {l l' : Bool} {x x' : Option Int} {r : ExecResult}
    (h : RunOk l x r) (hl : l = l') (hx : x = x') : RunOk l' x' r := by
  subst hl
  subst hx
  exact h

/-- Invariance of the main loop: for any environment trace, the loop either
runs out of trace (still RUNNING, invariants intact) or exits with the exit
guarantees. -/
theorem runLoop_spec (cfg : ExecConfig) (evs : List LoopEvent) :
    ∀ s : LoopState, s.sess.dirty = Dirty.clean → completedIffTerminal s.db →
      RunOk s.everLaunched s.db.exitCode (runLoop cfg evs s) := by
  induction evs with
  | nil =>
    intro s hd ht
    refine ⟨ht, rfl, rfl, ?_, ?_, ?_, ?_, ?_⟩
    · intro m hm
      simp [runLoop, mkResult] at hm
    · intro hm
      simp [runLoop, mkResult] at hm
    · intro c hc
      simp [runLoop, mkResult] at hc
    · intro c hc
      simp [runLoop, mkResult] at hc
    · intro hne
      exact absurd rfl hne
  | cons e rest ih =>
    intro s hd ht
    have hit := loopIter_spec cfg e s hd ht
    cases hres : loopIter cfg e s with
    | inl s' =>
      rw [hres] at hit
      have hc : ContOk s.everLaunched s.db.exitCode s' := hit
      obtain ⟨hd', hv', ht', hx', hl'⟩ := hc
      have h := ih s' hd' ht'
      simp only [runLoop, hres]
      exact RunOk_mono h hl' hx'
    | inr r =>
      rw [hres] at hit
      have he : ExitOk s.everLaunched s.db.exitCode r := hit
      simp only [runLoop, hres]
      exact ExitOk_runOk he

theorem completedIffTerminal_applyDirty_terminal (sess : Session) (db : ScriptRecord)
    (t : Nat) (h1 : sess.dirty.status = true) (h2 : sess.view.status.isTerminal = true)
    (h3 : sess.dirty.completedAt = true) (h4 : sess.view.completedAt = some t) :
    completedIffTerminal (applyDirty sess db) := by
  simp [completedIffTerminal, applyDirty, h1, h2, h3, h4]

theorem completedIffTerminal_applyDirty_running (sess : Session) (db : ScriptRecord)
    (h1 : sess.dirty.status = true) (h2 : sess.view.status = .RUNNING)
    (h3 : sess.dirty.completedAt = true) (h4 : sess.view.completedAt = none) :
    completedIffTerminal (applyDirty sess db) := by
  simp [completedIffTerminal, applyDirty, h1, h2, h3, h4, ScriptStatus.isTerminal]

/-- The combined guarantee `execute_script` gives on a found record, on every
exit path including an exhausted trace. -/
def ExecOkCore (r : ExecResult) : Prop :=
  completedIffTerminal r.db ∧
  (∀ m, r.outcome = .excFailed m → r.db.status = .FAILED ∧ r.db.errorMessage = some m ∧
     r.db.celeryTaskId = none ∧ r.db.completedAt ≠ none ∧ r.procLive = false) ∧
  (r.outcome ≠ .outOfFuel → r.db.status ≠ .RUNNING) ∧
  (r.outcome = .cancelledRet → r.db.status = .CANCELLED) ∧
  (∀ c, r.outcome = .completedNat c → c = some 0 ∧ r.db.status = .COMPLETED) ∧
  (∀ c, r.outcome = .failedNat c → r.db.status = .FAILED ∧
     r.db.errorMessage = some ("Script exited with code " ++ pyOptInt c)) ∧
  r.db.exitCode = none

theorem ExitOk_core {l : Bool} {x : Option Int} {r : ExecResult}
    (h : ExitOk l x r) (hx : x = none) : ExecOkCore r :=
  ⟨h.1, h.2.2.2.2.1, fun _ => h.2.2.2.1, h.2.2.2.2.2.1, h.2.2.2.2.2.2.1,
   h.2.2.2.2.2.2.2.1, h.2.2.1.trans hx⟩

theorem RunOk_core {l : Bool} {x : Option Int} {r : ExecResult}
    (h : RunOk l x r) (hx : x = none) : ExecOkCore r :=
  ⟨h.1, h.2.2.2.1, h.2.2.2.2.2.2.2, h.2.2.2.2.1, h.2.2.2.2.2.1, h.2.2.2.2.2.2.1,
   h.2.2.1.trans hx⟩

/-- Top-level guarantee of `execute_script` when the record exists. -/
theorem execute_script_core (cfg : ExecConfig) (env : ExecEnv) (db0 : ScriptRecord)
    (h : env.recordFound = true) : ExecOkCore (execute_script cfg env db0) := by
  simp only [execute_script]
  rw [if_neg (show ¬env.recordFound = false by simp [h])]
  cases hfile : env.fileExists with
  | false =>
    rw [if_pos rfl]
    exact ExitOk_core (outerHandler_exitOk _ _ rfl) rfl
  | true =>
    rw [if_neg (show ¬((true : Bool) = false) by decide)]
    cases hval : (validate_packages env.parse env.installed).1 with
    | false =>
      rw [if_pos rfl]
      refine ⟨?_, ?_, ?_, ?_, ?_, ?_, ?_⟩
      · refine completedIffTerminal_applyDirty_terminal _ _ env.startClock ?_ ?_ ?_ ?_ <;> rfl
      · intro m hm
        simp at hm
      · intro _ hcon
        have hcon2 : ScriptStatus.FAILED = ScriptStatus.RUNNING := hcon
        exact absurd hcon2 (by decide)
      · intro hm
        simp at hm
      · intro c hc
        simp at hc
      · intro c hc
        simp at hc
      · rfl
    | true =>
      rw [if_neg (show ¬((true : Bool) = false) by decide)]
      cases hsp : env.spawnOk with
      | false =>
        rw [if_pos rfl]
        exact ExitOk_core (outerHandler_exitOk _ _ rfl) rfl
      | true =>
        rw [if_neg (show ¬((true : Bool) = false) by decide)]
        exact RunOk_core (runLoop_spec cfg env.events _ rfl
          (completedIffTerminal_applyDirty_running _ _ rfl rfl rfl rfl)) rfl

theorem isTerminal_iff (st : ScriptStatus) :
    st.isTerminal = true ↔ (st = .COMPLETED ∨ st = .FAILED ∨ st = .CANCELLED) := by
  cases st <;> simp [ScriptStatus.isTerminal]

theorem execute_script_everLaunched_of (cfg : ExecConfig) (env : ExecEnv)
    (db0 : ScriptRecord) (h : env.recordFound = true) (hf : env.fileExists = true)
    (hv : (validate_packages env.parse env.installed).1 = true) (hs : env.spawnOk = true) :
    (execute_script cfg env db0).everLaunched = true := by
  simp only [execute_script]
  rw [if_neg (show ¬env.recordFound = false by simp [h]),
      if_neg (show ¬env.fileExists = false by simp [hf]),
      if_neg (show ¬(validate_packages env.parse env.installed).1 = false by simp [hv]),
      if_neg (show ¬env.spawnOk = false by simp [hs])]
  exact (runLoop_spec cfg env.events _ rfl
    (completedIffTerminal_applyDirty_running _ _ rfl rfl rfl rfl)).2.1

/-! ## Concrete scenario fixtures -/

/-- A freshly uploaded record with a pending task handle. -/
def dbU : ScriptRecord :=
  { status := .UPLOADED, executionLogs := none, errorMessage := none, exitCode := none,
    executionTimeSeconds := none, startedAt := none, completedAt := none,
    celeryTaskId := some "task-1" }

/-- `settings.MAX_EXECUTION_TIME` (1 hour), in model milliseconds. -/
def cfg0 : ExecConfig := ⟨3600000⟩

/-- A benign environment: record and file exist, no imports, spawn succeeds,
the in-memory cancellation set is empty (as it always is in deployment). -/
def envBase : ExecEnv :=
  { recordFound := true, filePath := "/scripts/user.py", fileExists := true,
    parse := .parsed [], installed := [], spawnOk := true, spawnErr := "spawn failed",
    startClock := 0, memCancelInit := false, events := [] }

/-! ## Claim theorems -/

/-- C1: on an existing record, any unexpected exception reaching the top-level
handler of `execute_script` leaves the record FAILED with the exception text
as `error_message`, the handle (`celery_task_id`) cleared, `completed_at` set,
and no live child process; moreover no return path of `execute_script` leaves
the record in RUNNING. -/
theorem exception_path_finalizes_record (cfg : ExecConfig) (env : ExecEnv)
    (db0 : ScriptRecord) (h : env.recordFound = true) :
    (∀ m, (execute_script cfg env db0).outcome = .excFailed m →
       (execute_script cfg env db0).db.status = .FAILED ∧
       (execute_script cfg env db0).db.errorMessage = some m ∧
       (execute_script cfg env db0).db.celeryTaskId = none ∧
       (execute_script cfg env db0).db.completedAt ≠ none ∧
       (execute_script cfg env db0).procLive = false) ∧
    ((execute_script cfg env db0).outcome ≠ .outOfFuel →
       (execute_script cfg env db0).db.status ≠ .RUNNING) :=
  ⟨(execute_script_core cfg env db0 h).2.1, (execute_script_core cfg env db0 h).2.2.1⟩

/-- An unexpected storage exception in the first loop iteration. -/
def envC1 : ExecEnv :=
  { envBase with events := [⟨false, some "database write failed", false, .readError 0⟩] }

theorem exception_path_finalizes_record_witness :
    envC1.recordFound = true ∧
    (execute_script cfg0 envC1 dbU).outcome = .excFailed "database write failed" ∧
    (execute_script cfg0 envC1 dbU).db.status = .FAILED ∧
    (execute_script cfg0 envC1 dbU).db.errorMessage = some "database write failed" ∧
    (execute_script cfg0 envC1 dbU).db.celeryTaskId = none ∧
    (execute_script cfg0 envC1 dbU).db.completedAt ≠ none ∧
    (execute_script cfg0 envC1 dbU).procLive = false :=
  ⟨rfl, rfl,
   ((exception_path_finalizes_record cfg0 envC1 dbU rfl).1 "database write failed" rfl).1,
   ((exception_path_finalizes_record cfg0 envC1 dbU rfl).1 "database write failed" rfl).2.1,
   ((exception_path_finalizes_record cfg0 envC1 dbU rfl).1 "database write failed" rfl).2.2.1,
   ((exception_path_finalizes_record cfg0 envC1 dbU rfl).1 "database write failed" rfl).2.2.2.1,
   ((exception_path_finalizes_record cfg0 envC1 dbU rfl).1 "database write failed" rfl).2.2.2.2⟩

/-- C2 (failing-input evaluation): the per-iteration line read is a blocking
`readline`, so the loop does not re-check the durable record on a bounded
cadence.  Here the CANCELLED write lands at model time 0 (just after the
first iteration's reload), the child then stays silent for 10^9 ms before its
next line, and the supervisor only observes the cancellation at time 10^9 —
vastly exceeding any `pollInterval * small_constant` bound
(`pollSleep = 10` ms).  The run does still end CANCELLED with the child dead
once the read returns. -/
theorem blocking_read_delays_cancellation :
    (execute_script cfg0
        { envBase with events :=
            [⟨false, none, true, .line "tick" 1000000000⟩,
             ⟨false, none, false, .emptyAlive 0 none⟩] } dbU).outcome = .cancelledRet ∧
    (execute_script cfg0
        { envBase with events :=
            [⟨false, none, true, .line "tick" 1000000000⟩,
             ⟨false, none, false, .emptyAlive 0 none⟩] } dbU).db.status = .CANCELLED ∧
    (execute_script cfg0
        { envBase with events :=
            [⟨false, none, true, .line "tick" 1000000000⟩,
             ⟨false, none, false, .emptyAlive 0 none⟩] } dbU).db.completedAt =
      some 1000000000 ∧
    (execute_script cfg0
        { envBase with events :=
            [⟨false, none, true, .line "tick" 1000000000⟩,
             ⟨false, none, false, .emptyAlive 0 none⟩] } dbU).procLive = false :=
  ⟨rfl, rfl, rfl, rfl⟩

/-- C3 (failing-input evaluation): a CANCELLED write lands after the
iteration's reload while a line is read.  The post-append re-check consults
only the in-process `cancelled_scripts` set (which nothing in the repository
ever adds to), so the ordinary flush persists the line and the run continues —
outcome is still "looping" (`outOfFuel` with one-iteration trace), the child
is still alive, and the supervisor has not acted on the cancellation, which
sits in the record only because the API endpoint wrote it there. -/
theorem flush_not_preempted_by_db_cancel :
    (execute_script cfg0 { envBase with events := [⟨false, none, true, .line "hello" 0⟩] }
        dbU).outcome = .outOfFuel ∧
    (execute_script cfg0 { envBase with events := [⟨false, none, true, .line "hello" 0⟩] }
        dbU).db.status = .CANCELLED ∧
    (execute_script cfg0 { envBase with events := [⟨false, none, true, .line "hello" 0⟩] }
        dbU).db.executionLogs = some "hello" ∧
    (execute_script cfg0 { envBase with events := [⟨false, none, true, .line "hello" 0⟩] }
        dbU).procLive = true :=
  ⟨rfl, rfl, rfl, rfl⟩

/-- C4 counterexample: the CANCELLED write lands after the final iteration's
reload; the natural-exit terminal write (which checks only the stale
in-session status) then overwrites the durable CANCELLED with COMPLETED.
`everCancelled` witnesses that the durable record held CANCELLED during the
run. -/
theorem cancelled_overwritten_counterexample :
    (execute_script cfg0 { envBase with events := [⟨false, none, true, .eofExited 0 5⟩] }
        dbU).everCancelled = true ∧
    (execute_script cfg0 { envBase with events := [⟨false, none, true, .eofExited 0 5⟩] }
        dbU).db.status = .COMPLETED :=
  ⟨rfl, rfl⟩

/-- C4 amended: a cancellation observed by one of the supervisor's
per-iteration database reloads is never overwritten — every run that returns
the cancelled outcome leaves the record CANCELLED. -/
theorem observed_cancel_preserved (cfg : ExecConfig) (env : ExecEnv) (db0 : ScriptRecord)
    (h : env.recordFound = true) :
    (execute_script cfg env db0).outcome = .cancelledRet →
    (execute_script cfg env db0).db.status = .CANCELLED :=
  (execute_script_core cfg env db0 h).2.2.2.1

/-- The CANCELLED write lands before the first iteration's reload. -/
def envC4w : ExecEnv :=
  { envBase with events := [⟨true, none, false, .emptyAlive 0 none⟩] }

theorem observed_cancel_preserved_witness :
    envC4w.recordFound = true ∧
    (execute_script cfg0 envC4w dbU).outcome = .cancelledRet ∧
    (execute_script cfg0 envC4w dbU).db.status = .CANCELLED :=
  ⟨rfl, rfl, observed_cancel_preserved cfg0 envC4w dbU rfl rfl⟩

/-- C5: after `execute_script` returns (or is cut anywhere by the trace
running out), `completed_at` is non-null iff the status is terminal. -/
theorem completed_at_iff_terminal (cfg : ExecConfig) (env : ExecEnv) (db0 : ScriptRecord)
    (h : env.recordFound = true) :
    ((execute_script cfg env db0).db.completedAt ≠ none ↔
      ((execute_script cfg env db0).db.status = .COMPLETED ∨
       (execute_script cfg env db0).db.status = .FAILED ∨
       (execute_script cfg env db0).db.status = .CANCELLED)) := by
  have hc := (execute_script_core cfg env db0 h).1
  rw [completedIffTerminal] at hc
  exact hc.trans (isTerminal_iff _)

/-- A normal run: one clean exit with code 0. -/
def envC5w : ExecEnv :=
  { envBase with events := [⟨false, none, false, .eofExited 0 5⟩] }

theorem completed_at_iff_terminal_witness :
    envC5w.recordFound = true ∧
    ((execute_script cfg0 envC5w dbU).db.completedAt ≠ none ↔
      ((execute_script cfg0 envC5w dbU).db.status = .COMPLETED ∨
       (execute_script cfg0 envC5w dbU).db.status = .FAILED ∨
       (execute_script cfg0 envC5w dbU).db.status = .CANCELLED)) :=
  ⟨rfl, completed_at_iff_terminal cfg0 envC5w dbU rfl⟩

/-- C6 counterexample: the child exits naturally with code 3 — the record
ends FAILED with an error message mentioning 3, but `exit_code` is NOT
persisted as 3: it stays null (the supervisor clears it at RUNNING entry and
never assigns it again on any path). -/
theorem exit_code_not_persisted_counterexample :
    (execute_script cfg0 { envBase with events := [⟨false, none, false, .eofExited 3 5⟩] }
        dbU).outcome = .failedNat (some 3) ∧
    (execute_script cfg0 { envBase with events := [⟨false, none, false, .eofExited 3 5⟩] }
        dbU).db.status = .FAILED ∧
    (execute_script cfg0 { envBase with events := [⟨false, none, false, .eofExited 3 5⟩] }
        dbU).db.errorMessage = some "Script exited with code 3" ∧
    (execute_script cfg0 { envBase with events := [⟨false, none, false, .eofExited 3 5⟩] }
        dbU).db.exitCode = none :=
  ⟨rfl, rfl, rfl, rfl⟩

/-- C6 amended: on natural exit, code 0 gives COMPLETED and a nonzero (or
unread) code gives FAILED with the code rendered into `error_message`; but
`exit_code` is never persisted — it is null on every return of
`execute_script` on an existing record. -/
theorem natural_exit_status_and_message (cfg : ExecConfig) (env : ExecEnv)
    (db0 : ScriptRecord) (h : env.recordFound = true) :
    (∀ c, (execute_script cfg env db0).outcome = .completedNat c →
       c = some 0 ∧ (execute_script cfg env db0).db.status = .COMPLETED) ∧
    (∀ c, (execute_script cfg env db0).outcome = .failedNat c →
       (execute_script cfg env db0).db.status = .FAILED ∧
       (execute_script cfg env db0).db.errorMessage =
         some ("Script exited with code " ++ pyOptInt c)) ∧
    (execute_script cfg env db0).db.exitCode = none :=
  ⟨(execute_script_core cfg env db0 h).2.2.2.2.1,
   (execute_script_core cfg env db0 h).2.2.2.2.2.1,
   (execute_script_core cfg env db0 h).2.2.2.2.2.2⟩

/-- A natural exit with code 7. -/
def envC6w : ExecEnv :=
  { envBase with events := [⟨false, none, false, .eofExited 7 0⟩] }

theorem natural_exit_status_and_message_witness :
    envC6w.recordFound = true ∧
    (execute_script cfg0 envC6w dbU).outcome = .failedNat (some 7) ∧
    ((execute_script cfg0 envC6w dbU).db.status = .FAILED ∧
     (execute_script cfg0 envC6w dbU).db.errorMessage =
       some ("Script exited with code " ++ pyOptInt (some 7))) ∧
    (execute_script cfg0 envC6w dbU).db.exitCode = none :=
  ⟨rfl, rfl,
   (natural_exit_status_and_message cfg0 envC6w dbU rfl).2.1 (some 7) rfl,
   (natural_exit_status_and_message cfg0 envC6w dbU rfl).2.2⟩

/-- C7: submitting an execution whose record is already RUNNING is rejected
by the run endpoint: no task is dispatched (third component `false`), so no
second child process can be started for that id, and the record is untouched. -/
theorem submit_while_running_rejected (script : ScriptRecord)
    (runningCount maxConcurrent : Nat) (taskId : String) (h : script.status = .RUNNING) :
    execute_script_endpoint (some script) runningCount maxConcurrent taskId =
      (.httpAlreadyRunning, some script, false) := by
  simp [execute_script_endpoint, h]

/-- A record currently RUNNING. -/
def runningRec : ScriptRecord := { dbU with status := .RUNNING, startedAt := some 0 }

theorem submit_while_running_rejected_witness :
    runningRec.status = .RUNNING ∧
    execute_script_endpoint (some runningRec) 1 5 "task-77" =
      (.httpAlreadyRunning, some runningRec, false) :=
  ⟨rfl, submit_while_running_rejected runningRec 1 5 "task-77" rfl⟩

/-- C8: when the package precheck fails, the record goes straight to FAILED
with `create_error_message missing` (which embeds the missing package list)
as `error_message`, `completed_at` set and the handle cleared, and no child
process is ever launched. -/
theorem precheck_failure_no_launch (cfg : ExecConfig) (env : ExecEnv) (db0 : ScriptRecord)
    (missing avail : List String) (h : env.recordFound = true) (hf : env.fileExists = true)
    (hv : validate_packages env.parse env.installed = (false, missing, avail)) :
    (execute_script cfg env db0).outcome = .precheckFailed missing ∧
    (execute_script cfg env db0).db.status = .FAILED ∧
    (execute_script cfg env db0).db.errorMessage = some (create_error_message missing) ∧
    (execute_script cfg env db0).db.completedAt = some env.startClock ∧
    (execute_script cfg env db0).db.celeryTaskId = none ∧
    (execute_script cfg env db0).everLaunched = false ∧
    (execute_script cfg env db0).procLive = false := by
  simp only [execute_script]
  rw [if_neg (show ¬env.recordFound = false by simp [h]),
      if_neg (show ¬env.fileExists = false by simp [hf]), hv,
      if_pos (show ((false : Bool), missing, avail).1 = false from rfl)]
  exact ⟨rfl, rfl, rfl, rfl, rfl, rfl, rfl⟩

/-- A script importing an unavailable package. -/
def envC8w : ExecEnv := { envBase with parse := .parsed ["foo_bar_baz"] }

theorem precheck_failure_no_launch_witness :
    envC8w.recordFound = true ∧ envC8w.fileExists = true ∧
    validate_packages envC8w.parse envC8w.installed = (false, ["foo_bar_baz"], []) ∧
    (execute_script cfg0 envC8w dbU).outcome = .precheckFailed ["foo_bar_baz"] ∧
    (execute_script cfg0 envC8w dbU).db.status = .FAILED ∧
    (execute_script cfg0 envC8w dbU).db.errorMessage =
      some (create_error_message ["foo_bar_baz"]) ∧
    (execute_script cfg0 envC8w dbU).everLaunched = false :=
  ⟨rfl, rfl, rfl,
   (precheck_failure_no_launch cfg0 envC8w dbU ["foo_bar_baz"] [] rfl rfl rfl).1,
   (precheck_failure_no_launch cfg0 envC8w dbU ["foo_bar_baz"] [] rfl rfl rfl).2.1,
   (precheck_failure_no_launch cfg0 envC8w dbU ["foo_bar_baz"] [] rfl rfl rfl).2.2.1,
   (precheck_failure_no_launch cfg0 envC8w dbU ["foo_bar_baz"] [] rfl rfl rfl).2.2.2.2.2.1⟩

/-- C9: the worker-startup sweep turns every RUNNING record into FAILED with
the restart explanation, `completed_at` set and the handle cleared, and
leaves every non-RUNNING record unchanged. -/
theorem stale_running_swept (t : Nat) (recs : List ScriptRecord) (i : Nat)
    (r : ScriptRecord) (h : recs[i]? = some r) :
    ∃ r', (cleanup_stale_scripts t recs)[i]? = some r' ∧
      (r.status = .RUNNING → r'.status = .FAILED ∧
        r'.errorMessage = some "Worker was restarted while script was running" ∧
        r'.completedAt = some t ∧ r'.celeryTaskId = none) ∧
      (r.status ≠ .RUNNING → r' = r) := by
  unfold cleanup_stale_scripts
  refine ⟨_, by rw [List.getElem?_map, h]; rfl, ?_, ?_⟩
  · intro hr
    simp [hr]
  · intro hr
    simp [hr]

/-- One stale RUNNING record next to an untouched one. -/
def staleRec : ScriptRecord := { dbU with status := .RUNNING, startedAt := some 1 }

theorem stale_running_swept_witness :
    ([staleRec, dbU][0]? = some staleRec) ∧
    (∃ r', (cleanup_stale_scripts 99 [staleRec, dbU])[0]? = some r' ∧
      (staleRec.status = .RUNNING → r'.status = .FAILED ∧
        r'.errorMessage = some "Worker was restarted while script was running" ∧
        r'.completedAt = some 99 ∧ r'.celeryTaskId = none) ∧
      (staleRec.status ≠ .RUNNING → r' = staleRec)) :=
  ⟨rfl, stale_running_swept 99 [staleRec, dbU] 0 staleRec rfl⟩

/-- C10: an unparseable script yields the empty import set, so the precheck
reports `ok = true` with no missing packages, and the run proceeds to launch
the child instead of failing the pre-flight gate. -/
theorem unparseable_script_passes_precheck (installed : List String) (cfg : ExecConfig)
    (db0 : ScriptRecord) (fp se : String) (t0 : Nat) (mem : Bool)
    (evs : List LoopEvent) :
    extract_imports .parseError = [] ∧
    validate_packages .parseError installed = (true, [], []) ∧
    (execute_script cfg
      { recordFound := true, filePath := fp, fileExists := true, parse := .parseError,
        installed := installed, spawnOk := true, spawnErr := se, startClock := t0,
        memCancelInit := mem, events := evs } db0).everLaunched = true :=
  ⟨rfl, rfl, execute_script_everLaunched_of _ _ _ rfl rfl rfl rfl⟩

end DollarClub
